import Mathlib

/-!
Verification development for `src/SourceCode/api_tester.py`, a command-line
HTTP testing tool.  The program is embedded shallowly:

* printed output is modelled as a list of strings, one entry per `print` call
  (an entry may contain embedded newline characters, mirroring `print("\n...")`);
  the Chinese/emoji banner texts of the source are rendered as ASCII
  placeholders, while every content-bearing part of each line (method, URL,
  header keys and values, status data, bodies, error messages) is kept exactly;
* the standard-library collaborators are modelled by executable Lean
  functions: `json_loads`/`json_dumps_indent2` model `json.loads` and
  `json.dumps(v, indent=2, ensure_ascii=False)` on the integer-numeral
  fragment of JSON (numbers are integers; string escapes cover the
  single-character escapes; this is the fragment the claims exercise),
  `assocInsert` models assignment into a Python `dict` (an existing key keeps
  its position and gets the new value, a new key is appended at the end),
  `pyStrip` models `str.strip`, and `splitFirstColon` models
  `str.split(char, 1)` on a colon;
* the HTTP transport (the `requests` library) is an external collaborator and
  enters as an explicit `TransportOutcome` argument; the file system enters as
  a function from paths to optional contents.
-/

set_option linter.unusedVariables false

namespace ApiTester

/-- JSON values as produced by `json.loads`.  Numbers are modelled as
integers: the integer-numeral fragment of JSON is the one the claims
exercise. -/
inductive JVal where
  | null
  | bool (b : Bool)
  | num (n : Int)
  | str (s : String)
  | arr (elems : List JVal)
  | obj (members : List (String × JVal))
  deriving Repr

/-- Python truthiness of a parsed JSON value: `None`, `False`, `0`, the empty
string, the empty list and the empty dict are falsy, everything else is
truthy. -/
def JVal.truthy : JVal → Bool
  | .null => false
  | .bool b => b
  | .num n => n ≠ 0
  | .str s => s ≠ ""
  | .arr [] => false
  | .arr (_ :: _) => true
  | .obj [] => false
  | .obj (_ :: _) => true

/-- The left-brace character, written by code point. -/
def lbraceChar : Char := Char.ofNat 123

/-- The right-brace character, written by code point. -/
def rbraceChar : Char := Char.ofNat 125

/-- JSON whitespace accepted between tokens by `json.loads`. -/
def isJsonWs (c : Char) : Bool :=
  c = ' ' || c = '\t' || c = '\n' || c = '\r'

/-- Drop leading JSON whitespace. -/
def skipWs : List Char → List Char
  | [] => []
  | c :: cs => if isJsonWs c then skipWs cs else c :: cs

/-- Single-character string escapes of JSON (the `\uXXXX` form is outside the
modelled fragment). -/
def escCharOf : Char → Option Char
  | '"' => some '"'
  | '\\' => some '\\'
  | '/' => some '/'
  | 'b' => some (Char.ofNat 8)
  | 'f' => some (Char.ofNat 12)
  | 'n' => some '\n'
  | 'r' => some '\r'
  | 't' => some '\t'
  | _ => none

/-- Parse the body of a JSON string after the opening quote, accumulating the
characters read so far.  Raw control characters are rejected, as in
`json.loads`. -/
def parseStringBody (acc : List Char) : List Char → Option (String × List Char)
  | [] => none
  | '"' :: cs => some (String.mk acc.reverse, cs)
  | '\\' :: [] => none
  | '\\' :: e :: cs =>
    match escCharOf e with
    | some d => parseStringBody (d :: acc) cs
    | none => none
  | c :: cs => if c.toNat < 32 then none else parseStringBody (c :: acc) cs

/-- Split a character list into its leading run of decimal digits and the
rest. -/
def takeDigits : List Char → List Char × List Char
  | [] => ([], [])
  | c :: cs =>
    if c.isDigit then
      let p := takeDigits cs
      (c :: p.1, p.2)
    else ([], c :: cs)

/-- Value of a list of decimal digits. -/
def digitsToNat (ds : List Char) : Nat :=
  ds.foldl (fun acc d => acc * 10 + (d.toNat - 48)) 0

/-- A numeral must not be followed by a fraction or exponent marker in the
modelled integer fragment (those continuations are floats in `json.loads`). -/
def noNumTail : List Char → Bool
  | [] => true
  | c :: _ => !(c = '.' || c = 'e' || c = 'E')

/-- Parse an unsigned JSON integer numeral: `0`, or a nonzero digit followed
by digits, never with a leading zero. -/
def parseUNum : List Char → Option (Nat × List Char)
  | [] => none
  | c :: cs =>
    if c = '0' then
      if noNumTail cs then some (0, cs) else none
    else if c.isDigit then
      let p := takeDigits cs
      if noNumTail p.2 then some (digitsToNat (c :: p.1), p.2) else none
    else none

/-- Parse a signed JSON integer numeral. -/
def parseINum : List Char → Option (Int × List Char)
  | '-' :: cs =>
    match parseUNum cs with
    | some p => some (-(p.1 : Int), p.2)
    | none => none
  | cs =>
    match parseUNum cs with
    | some p => some ((p.1 : Int), p.2)
    | none => none

/-- Assignment `d[k] = v` into a Python dict rendered as an association list:
an existing key keeps its position and receives the new value, a missing key
is appended at the end. -/
def assocInsert {β : Type} (d : List (String × β)) (k : String) (v : β) :
    List (String × β) :=
  if d.any (fun p => p.1 = k) then d.map (fun p => if p.1 = k then (k, v) else p)
  else d ++ [(k, v)]

/-- Membership of key `k` in a Python dict rendered as an association list. -/
def hasKey {β : Type} (k : String) (d : List (String × β)) : Bool :=
  d.any (fun p => p.1 = k)

/-- Lookup in a Python dict rendered as an association list. -/
def assocLookup {β : Type} (k : String) : List (String × β) → Option β
  | [] => none
  | p :: d => if p.1 = k then some p.2 else assocLookup k d

/-- Build a Python dict from a list of key/value pairs by repeated
assignment, as a dict display does: a repeated key keeps its first position
and its last value. -/
def pyDictOfList {β : Type} (ms : List (String × β)) : List (String × β) :=
  ms.foldl (fun d kv => assocInsert d kv.1 kv.2) []

mutual

/-- Recursive-descent JSON value parser modelling `json.loads` on the
integer-numeral fragment; `fuel` bounds the recursion depth and is chosen
large enough by `json_loads`. -/
def parseVal : Nat → List Char → Option (JVal × List Char)
  | 0, _ => none
  | fuel + 1, cs0 =>
    match skipWs cs0 with
    | [] => none
    | c :: cs =>
      if c = '"' then
        match parseStringBody [] cs with
        | some p => some (.str p.1, p.2)
        | none => none
      else if c = lbraceChar then
        match skipWs cs with
        | [] => none
        | d :: cs2 =>
          if d = rbraceChar then some (.obj [], cs2)
          else
            match parseMembers fuel (d :: cs2) with
            | some p => some (.obj (pyDictOfList p.1), p.2)
            | none => none
      else if c = '[' then
        match skipWs cs with
        | [] => none
        | d :: cs2 =>
          if d = ']' then some (.arr [], cs2)
          else
            match parseElems fuel (d :: cs2) with
            | some p => some (.arr p.1, p.2)
            | none => none
      else if c = 't' then
        match cs with
        | 'r' :: 'u' :: 'e' :: rest => some (.bool true, rest)
        | _ => none
      else if c = 'f' then
        match cs with
        | 'a' :: 'l' :: 's' :: 'e' :: rest => some (.bool false, rest)
        | _ => none
      else if c = 'n' then
        match cs with
        | 'u' :: 'l' :: 'l' :: rest => some (.null, rest)
        | _ => none
      else
        match parseINum (c :: cs) with
        | some p => some (.num p.1, p.2)
        | none => none

/-- Parse the comma-separated elements of a nonempty JSON array, up to and
including the closing bracket. -/
def parseElems : Nat → List Char → Option (List JVal × List Char)
  | 0, _ => none
  | fuel + 1, cs =>
    match parseVal fuel cs with
    | none => none
    | some p =>
      match skipWs p.2 with
      | ',' :: rest =>
        match parseElems fuel rest with
        | some q => some (p.1 :: q.1, q.2)
        | none => none
      | ']' :: rest => some ([p.1], rest)
      | _ => none

/-- Parse the comma-separated members of a nonempty JSON object, up to and
including the closing brace. -/
def parseMembers : Nat → List Char → Option (List (String × JVal) × List Char)
  | 0, _ => none
  | fuel + 1, cs =>
    match skipWs cs with
    | '"' :: cs2 =>
      match parseStringBody [] cs2 with
      | none => none
      | some pk =>
        match skipWs pk.2 with
        | ':' :: rest =>
          match parseVal fuel rest with
          | none => none
          | some pv =>
            match skipWs pv.2 with
            | ',' :: rest2 =>
              match parseMembers fuel rest2 with
              | some q => some ((pk.1, pv.1) :: q.1, q.2)
              | none => none
            | d :: rest2 =>
              if d = rbraceChar then some ([(pk.1, pv.1)], rest2) else none
            | [] => none
        | _ => none
    | _ => none

end

/-- Model of `json.loads`: parse one JSON value and require that only
whitespace follows it. -/
def json_loads (s : String) : Option JVal :=
  match parseVal (s.length + 1) s.data with
  | some p => if (skipWs p.2).isEmpty then some p.1 else none
  | none => none

/-- Hexadecimal digit character, lowercase, as Python uses in `\uXXXX`
escapes. -/
def hexDigit (n : Nat) : Char :=
  if n < 10 then Char.ofNat (48 + n) else Char.ofNat (87 + n)

/-- Escape one character of a JSON string as `json.dumps` does with
`ensure_ascii=False`: only the quote, the backslash and control characters
are escaped; every character at code point 32 and above, in particular every
non-ASCII character, is emitted unchanged. -/
def escapeChar (c : Char) : String :=
  if c = '"' then "\\\""
  else if c = '\\' then "\\\\"
  else if c = '\n' then "\\n"
  else if c = '\t' then "\\t"
  else if c = '\r' then "\\r"
  else if c = Char.ofNat 8 then "\\b"
  else if c = Char.ofNat 12 then "\\f"
  else if c.toNat < 32 then
    "\\u00" ++ String.mk [hexDigit (c.toNat / 16), hexDigit (c.toNat % 16)]
  else String.singleton c

/-- Escape a whole string as `json.dumps(·, ensure_ascii=False)` does. -/
def escapeJsonString (s : String) : String :=
  String.join (s.data.map escapeChar)

/-- A run of `n` spaces. -/
def pad (n : Nat) : String :=
  String.mk (List.replicate n ' ')

/-- The left-brace character as a string. -/
def lbraceStr : String := String.singleton lbraceChar

/-- The right-brace character as a string. -/
def rbraceStr : String := String.singleton rbraceChar

mutual

/-- Serialize a JSON value as `json.dumps(v, indent=2, ensure_ascii=False)`
does, with `ind` the indentation of the surrounding context. -/
def dumpsVal (ind : Nat) (v : JVal) : String :=
  match v with
  | .null => "null"
  | .bool true => "true"
  | .bool false => "false"
  | .num n => toString n
  | .str s => "\"" ++ escapeJsonString s ++ "\""
  | .arr [] => "[]"
  | .arr (w :: ws) =>
    "[\n" ++ dumpsArrItems (ind + 2) w ws ++ "\n" ++ pad ind ++ "]"
  | .obj [] => lbraceStr ++ rbraceStr
  | .obj ((k, w) :: ms) =>
    lbraceStr ++ "\n" ++ dumpsObjItems (ind + 2) k w ms ++ "\n" ++ pad ind ++ rbraceStr
termination_by sizeOf v

/-- Serialize the items of a nonempty array, one per line at indentation
`ind`, separated by commas. -/
def dumpsArrItems (ind : Nat) (v : JVal) (vs : List JVal) : String :=
  match vs with
  | [] => pad ind ++ dumpsVal ind v
  | w :: ws => pad ind ++ dumpsVal ind v ++ ",\n" ++ dumpsArrItems ind w ws
termination_by 1 + sizeOf v + sizeOf vs

/-- Serialize the members of a nonempty object, one per line at indentation
`ind`, separated by commas, with a colon and a space between key and
value. -/
def dumpsObjItems (ind : Nat) (k : String) (v : JVal)
    (ms : List (String × JVal)) : String :=
  match ms with
  | [] => pad ind ++ "\"" ++ escapeJsonString k ++ "\": " ++ dumpsVal ind v
  | (k2, v2) :: ms2 =>
    pad ind ++ "\"" ++ escapeJsonString k ++ "\": " ++ dumpsVal ind v
      ++ ",\n" ++ dumpsObjItems ind k2 v2 ms2
termination_by 1 + sizeOf v + sizeOf ms

end

/-- Model of `json.dumps(v, indent=2, ensure_ascii=False)`. -/
def json_dumps_indent2 (v : JVal) : String :=
  dumpsVal 0 v

/-- Header mappings, as an insertion-ordered Python dict. -/
abbrev Headers := List (String × String)

/-- Python truthiness of an optional string (`None` and the empty string are
falsy). -/
def truthyStr : Option String → Bool
  | none => false
  | some s => s ≠ ""

/-- Python truthiness of an optional parsed JSON value. -/
def truthyJson : Option JVal → Bool
  | none => false
  | some j => j.truthy

/-- Model of `str.upper` on the ASCII strings used as HTTP methods. -/
def pyUpper (s : String) : String :=
  String.mk (s.data.map Char.toUpper)

/-- Model of Python `str.strip` whitespace. -/
def isPySpace (c : Char) : Bool :=
  c = ' ' || c = '\t' || c = '\n' || c = '\r' || c = Char.ofNat 11 || c = Char.ofNat 12

/-- Model of `str.strip()`: drop surrounding whitespace. -/
def pyStrip (s : String) : String :=
  String.mk (((s.data.dropWhile isPySpace).reverse.dropWhile isPySpace).reverse)

/-- Model of `s.split(":", 1)` restricted to its two uses in `main`: `none`
when the token holds no colon (Python raises `ValueError` on unpacking),
otherwise the part before the first colon and everything after it. -/
def splitFirstColonAux (acc : List Char) : List Char → Option (String × String)
  | [] => none
  | c :: cs =>
    if c = ':' then some (String.mk acc.reverse, String.mk cs)
    else splitFirstColonAux (c :: acc) cs

/-- Split a header token on its first colon, if any. -/
def splitFirstColon (s : String) : Option (String × String) :=
  splitFirstColonAux [] s.data

/-- A response as the `requests` library delivers it: `version` is the
integer version code `response.raw.version` (11 for HTTP/1.1), and `body` is
`response.text`.  The URL is carried because the `raise_for_status` error
message embeds it. -/
structure Response where
  version : Nat
  statusCode : Nat
  reason : String
  headers : List (String × String)
  body : String
  url : String
  deriving Repr

/-- What the single `requests.request` call does: deliver a response, raise a
`requests.exceptions.RequestException` (the network-stage failures: DNS,
connection, timeout, TLS), or raise any other exception. -/
inductive TransportOutcome where
  | ok (r : Response)
  | requestError (msg : String)
  | otherError (msg : String)
  deriving Repr

/-- The argument record of the one `requests.request(...)` call, lines 55-60
of the source: method, URL, the headers mapping, `data=`, `json=` and the
fixed `timeout=10`. -/
structure TransportCall where
  method : String
  url : String
  headers : Headers
  data : Option String
  json : Option JVal
  timeout : Nat
  deriving Repr

/-- Line 31-33 of the source: the headers shown in the verbose preview are a
copy of the user headers into which, when the JSON body is truthy,
`Content-Type: application/json` is assigned. -/
def finalHeaders (headers : Headers) (jsonData : Option JVal) : Headers :=
  if truthyJson jsonData then assocInsert headers "Content-Type" "application/json"
  else headers

/-- Lines 40-45 of the source: the body section of the verbose preview.
`data` wins when truthy, else a truthy JSON body is pretty-printed, else
nothing is shown. -/
def previewBodyLines (data : Option String) (jsonData : Option JVal) : List String :=
  if truthyStr data then ["\n> Body (Form Data/Raw Text):", data.getD ""]
  else
    match jsonData with
    | some j =>
      if j.truthy then ["\n> Body (JSON):", json_dumps_indent2 j] else []
    | none => []

/-- Lines 26-49 of the source: the output printed before the transport call.
Verbose mode prints the banner, the pseudo request line, the effective
headers and the body section; otherwise a single sending line is printed. -/
def previewLines (method url : String) (headers : Headers) (data : Option String)
    (jsonData : Option JVal) (verbose : Bool) : List String :=
  if verbose then
    ["---------- Outgoing Request ----------\n",
     "> " ++ pyUpper method ++ " " ++ url ++ " HTTP/1.1",
     "> Headers:"]
      ++ (finalHeaders headers jsonData).map (fun kv => ">   " ++ kv.1 ++ ": " ++ kv.2)
      ++ previewBodyLines data jsonData
      ++ ["\n------------------------------------------------------\n"]
  else
    ["Sending " ++ pyUpper method ++ " request to: " ++ url ++ " ..."]

/-- Line 61 of the source: `response.raise_for_status()` raises exactly for
status codes 400-599. -/
def raiseForStatus (r : Response) : Bool :=
  400 ≤ r.statusCode && r.statusCode < 600

/-- The string form of the version in the status line: the source prints
`response.raw.version / 10.0`, whose Python string form for a version code
`v` is the decimal `v div 10` point `v mod 10` (11 prints as 1.1, 10 as
1.0). -/
def versionStr (v : Nat) : String :=
  toString (v / 10) ++ "." ++ toString (v % 10)

/-- Line 68-70 of the source: the status line of a successful response. -/
def statusLineStr (r : Response) : String :=
  "Status: HTTP/" ++ versionStr r.version ++ " " ++ toString r.statusCode
    ++ " " ++ r.reason

/-- Lines 76-85 of the source: the body block of a successful response.
`response.json()` is attempted first; on a JSON decode failure a nonempty
`response.text` is printed verbatim, and an empty one prints the no-body
placeholder. -/
def renderBodyLines (body : String) : List String :=
  match json_loads body with
  | some v => [json_dumps_indent2 v]
  | none => if body ≠ "" then [body] else ["(no body)"]

/-- Lines 66-85 of the source: everything printed for a response that passed
`raise_for_status`. -/
def successLines (r : Response) : List String :=
  ["---------- Server Response ----------\n", statusLineStr r, "\nHeaders:"]
    ++ r.headers.map (fun kv => "  " ++ kv.1 ++ ": " ++ kv.2)
    ++ ["\nBody:"]
    ++ renderBodyLines r.body

/-- The message of the `HTTPError` raised by `raise_for_status`: requests
formats `'{code} Client Error: {reason} for url: {url}'` for 4xx and the
Server Error variant for 5xx (the function is only reached for codes
400-599). -/
def httpErrorMessage (r : Response) : String :=
  if r.statusCode < 500 then
    toString r.statusCode ++ " Client Error: " ++ r.reason ++ " for url: " ++ r.url
  else
    toString r.statusCode ++ " Server Error: " ++ r.reason ++ " for url: " ++ r.url

/-- Truthiness of a `requests` `Response` object: `Response.__bool__` returns
`self.ok`, which is true exactly when the status code is below 400.  It is
not a None test. -/
def responseTruthy (r : Response) : Bool :=
  r.statusCode < 400

/-- Lines 87-90 of the source: the `except requests.exceptions.HTTPError`
handler prints the error banner with the exception message, then prints the
response body only under `if e.response:`, which evaluates the truthiness of
the attached `Response` object. -/
def httpErrorLines (r : Response) : List String :=
  ["HTTP error: " ++ httpErrorMessage r]
    ++ (if responseTruthy r then ["   Response content: " ++ r.body] else [])

/-- Lines 91-92 of the source: the `except requests.exceptions.RequestException`
handler. -/
def networkErrorLine (msg : String) : String :=
  "Request failed, check the URL or network connection: " ++ msg

/-- Lines 93-94 of the source: the catch-all `except Exception` handler. -/
def unknownErrorLine (msg : String) : String :=
  "Unknown error: " ++ msg

/-- The observable behaviour of one `make_request` invocation: the lines
printed before the transport call, the lines printed after it, and the
transport calls issued. -/
structure RequestTrace where
  preview : List String
  outcome : List String
  calls : List TransportCall
  deriving Repr

/-- Lines 12-94 of the source: `make_request`.  The preview section is
printed, then exactly one transport call is issued with the original
`headers`, `data` and `json_data` arguments and `timeout=10`; the response is
checked with `raise_for_status` and rendered, and the three exception
handlers classify failures.  The function always returns normally. -/
def make_request (method url : String) (headers : Headers) (data : Option String)
    (jsonData : Option JVal) (verbose : Bool) (transport : TransportOutcome) :
    RequestTrace :=
  { preview := previewLines method url headers data jsonData verbose
    outcome :=
      match transport with
      | .ok r => if raiseForStatus r then httpErrorLines r else successLines r
      | .requestError msg => [networkErrorLine msg]
      | .otherError msg => [unknownErrorLine msg]
    calls := [{ method := method, url := url, headers := headers, data := data,
                json := jsonData, timeout := 10 }] }

/-- The parsed command-line arguments, as argparse delivers them: `header`
is `None` or the accumulated list of `-H` tokens, and the three body options
are `None` or the given strings (argparse enforces their mutual
exclusion). -/
structure Args where
  method : String
  url : String
  header : Option (List String)
  data : Option String
  json_data : Option String
  file : Option String
  verbose : Bool

/-- The file system as `main` sees it: a path maps to its text content, or to
nothing when opening it raises `FileNotFoundError`. -/
abbrev FileSystem := String → Option String

/-- The warning printed for a header token without a colon, line 138. -/
def warnLine (tok : String) : String :=
  "Warning: invalid header format: " ++ tok ++ ". Ignored."

/-- Lines 131-138 of the source: the header loop.  Each token is split on the
first colon; both parts are stripped and assigned into the headers dict; a
token without a colon appends a warning instead and the loop continues. -/
def processHeaderLoop (hs : Headers) (ws : List String) :
    List String → Headers × List String
  | [] => (hs, ws)
  | tok :: rest =>
    match splitFirstColon tok with
    | some kv => processHeaderLoop (assocInsert hs (pyStrip kv.1) (pyStrip kv.2)) ws rest
    | none => processHeaderLoop hs (ws ++ [warnLine tok]) rest

/-- The headers dict and warning lines produced from the `-H` tokens. -/
def processHeaderTokens (tokens : List String) : Headers × List String :=
  processHeaderLoop [] [] tokens

/-- The trimmed key/value pair a single header token contributes, if any. -/
def stripSplit (tok : String) : Option (String × String) :=
  (splitFirstColon tok).map (fun kv => (pyStrip kv.1, pyStrip kv.2))

/-- The fatal diagnostic for invalid inline JSON, line 147. -/
def jsonDataErrorLine : String :=
  "Error: the content provided to --json_data is not valid JSON."

/-- The fatal diagnostic for a missing body file, line 154. -/
def fileNotFoundLine (p : String) : String :=
  "Error: file not found " ++ p ++ "."

/-- The fatal diagnostic for a body file with invalid JSON content, line
157. -/
def fileJsonErrorLine (p : String) : String :=
  "Error: the content of file " ++ p ++ " is not valid JSON."

/-- Result of resolving the JSON body: a fatal pre-flight diagnostic, or the
optional parsed body. -/
inductive BodyResolution where
  | fatal (line : String)
  | ok (jsonBody : Option JVal)

/-- Lines 140-158 of the source: `json_body` starts as `None`; a truthy
`--json_data` string is parsed (parse failure is fatal), otherwise a truthy
`--file` path is read and parsed (missing file and parse failure are fatal).
The guards are Python truthiness tests, so an empty string behaves like an
absent option. -/
def resolveJsonBody (args : Args) (fs : FileSystem) : BodyResolution :=
  if truthyStr args.json_data then
    match json_loads (args.json_data.getD "") with
    | some v => .ok (some v)
    | none => .fatal jsonDataErrorLine
  else if truthyStr args.file then
    match fs (args.file.getD "") with
    | none => .fatal (fileNotFoundLine (args.file.getD ""))
    | some content =>
      match json_loads content with
      | some v => .ok (some v)
      | none => .fatal (fileJsonErrorLine (args.file.getD ""))
  else .ok none

/-- The outcome of a whole run: `exit1` is `sys.exit(1)` after the printed
lines; `completed` is a normal return (process exit code 0) with the printed
lines and the transport calls issued. -/
inductive RunResult where
  | exit1 (lines : List String)
  | completed (lines : List String) (calls : List TransportCall)
  deriving Repr

/-- Lines 97-165 of the source: `main` after argument parsing.  The header
tokens are processed (their warnings print first), the JSON body is resolved
(fatal failures print their diagnostic and exit with status 1 before any
network call), and `make_request` is invoked with the resolved pieces. -/
def main (args : Args) (fs : FileSystem) (transport : TransportOutcome) :
    RunResult :=
  let hw := processHeaderTokens (args.header.getD [])
  match resolveJsonBody args fs with
  | .fatal line => .exit1 (hw.2 ++ [line])
  | .ok jsonBody =>
    let tr := make_request args.method args.url hw.1 args.data jsonBody
      args.verbose transport
    .completed (hw.2 ++ tr.preview ++ tr.outcome) tr.calls

/-- The process exit code of a run. -/
def mainExitCode (args : Args) (fs : FileSystem) (transport : TransportOutcome) :
    Nat :=
  match main args fs transport with
  | .exit1 _ => 1
  | .completed _ _ => 0

/-- The transport calls issued during a run. -/
def mainCalls (args : Args) (fs : FileSystem) (transport : TransportOutcome) :
    List TransportCall :=
  match main args fs transport with
  | .exit1 _ => []
  | .completed _ calls => calls

/-- The fatal pre-flight conditions as the amended claim C2 states them: a
truthy `--json_data` string that fails to parse, or, failing that option, a
truthy `--file` path that is missing or whose content fails to parse.  This
definition follows the words of the amended claim; the theorem below compares
it with the behaviour of `main`. -/
def fatalPreflight (args : Args) (fs : FileSystem) : Bool :=
  if truthyStr args.json_data then (json_loads (args.json_data.getD "")).isNone
  else if truthyStr args.file then
    match fs (args.file.getD "") with
    | none => true
    | some content => (json_loads content).isNone
  else false

/-- A file system with no files. -/
def noFs : FileSystem := fun _ => none

/-- A file system holding a single JSON body file. -/
def oneFileFs : FileSystem :=
  fun p => if p = "body.json" then some "\x7b\"a\": 1\x7d" else none

theorem json_loads_empty : json_loads "" = none := rfl

theorem hasKey_nil {β : Type} (k : String) : hasKey k ([] : List (String × β)) = false :=
  rfl

theorem assocInsert_not_mem {β : Type} {d : List (String × β)} {k : String} (v : β)
    (h : hasKey k d = false) : assocInsert d k v = d ++ [(k, v)] := by
  have h2 : (d.any fun p => decide (p.1 = k)) = false := h
  unfold assocInsert
  rw [h2]
  simp

theorem assocLookup_map_update {β : Type} (k : String) (v : β) :
    ∀ d : List (String × β), hasKey k d = true →
      assocLookup k (d.map fun p => if p.1 = k then (k, v) else p) = some v := by
  intro d
  induction d with
  | nil => intro h; simp [hasKey] at h
  | cons p d ih =>
    intro h
    by_cases hp : p.1 = k
    · simp [assocLookup, hp]
    · have h2 : hasKey k d = true := by simpa [hasKey, hp] using h
      simpa [assocLookup, hp] using ih h2

theorem assocLookup_append_self {β : Type} (k : String) (v : β) :
    ∀ d : List (String × β), hasKey k d = false →
      assocLookup k (d ++ [(k, v)]) = some v := by
  intro d
  induction d with
  | nil => intro _; simp [assocLookup]
  | cons p d ih =>
    intro h
    have hp : ¬ p.1 = k := by
      intro he
      simp [hasKey, he] at h
    have h2 : hasKey k d = false := by simpa [hasKey, hp] using h
    simpa [assocLookup, hp] using ih h2

theorem assocLookup_insert_self {β : Type} (d : List (String × β)) (k : String) (v : β) :
    assocLookup k (assocInsert d k v) = some v := by
  unfold assocInsert
  by_cases h : hasKey k d = true
  · have h2 : (d.any fun p => decide (p.1 = k)) = true := h
    rw [h2]
    simpa using assocLookup_map_update k v d h
  · have hf : hasKey k d = false := by
      revert h; cases hasKey k d <;> simp
    have h2 : (d.any fun p => decide (p.1 = k)) = false := hf
    rw [h2]
    simpa using assocLookup_append_self k v d hf

theorem assocLookup_map_update_other {β : Type} (k k2 : String) (v : β) (hne : k2 ≠ k) :
    ∀ d : List (String × β),
      assocLookup k2 (d.map fun p => if p.1 = k then (k, v) else p)
        = assocLookup k2 d := by
  intro d
  induction d with
  | nil => rfl
  | cons p d ih =>
    by_cases hp : p.1 = k
    · have hk : ¬ (k = k2) := fun he => hne he.symm
      have hp2 : ¬ (p.1 = k2) := by rw [hp]; exact hk
      simp [assocLookup, hp, hk, hp2, ih]
    · by_cases hq : p.1 = k2
      · simp [assocLookup, hp, hq, hne]
      · simp [assocLookup, hp, hq, ih]

theorem assocLookup_append_other {β : Type} (k k2 : String) (v : β) (hne : k2 ≠ k) :
    ∀ d : List (String × β),
      assocLookup k2 (d ++ [(k, v)]) = assocLookup k2 d := by
  intro d
  induction d with
  | nil =>
    have hk : ¬ (k = k2) := fun he => hne he.symm
    simp [assocLookup, hk]
  | cons p d ih =>
    by_cases hq : p.1 = k2
    · simp [assocLookup, hq]
    · simp [assocLookup, hq, ih]

theorem assocLookup_insert_other {β : Type} (d : List (String × β)) (k k2 : String)
    (v : β) (hne : k2 ≠ k) :
    assocLookup k2 (assocInsert d k v) = assocLookup k2 d := by
  unfold assocInsert
  by_cases h : (d.any fun p => decide (p.1 = k)) = true
  · rw [h]
    simpa using assocLookup_map_update_other k k2 v hne d
  · have hf : (d.any fun p => decide (p.1 = k)) = false := by
      revert h; cases (d.any fun p => decide (p.1 = k)) <;> simp
    rw [hf]
    simpa using assocLookup_append_other k k2 v hne d

theorem map_fst_map_update {β : Type} (k : String) (v : β) :
    ∀ d : List (String × β),
      (d.map fun p => if p.1 = k then (k, v) else p).map Prod.fst
        = d.map Prod.fst := by
  intro d
  induction d with
  | nil => rfl
  | cons p d ih =>
    by_cases hp : p.1 = k
    · subst hp; simp [ih]
    · simp [hp, ih]

theorem assocInsert_keys {β : Type} (d : List (String × β)) (k : String) (v : β) :
    (assocInsert d k v).map Prod.fst =
      if hasKey k d then d.map Prod.fst else d.map Prod.fst ++ [k] := by
  unfold assocInsert
  by_cases h : hasKey k d = true
  · have h2 : (d.any fun p => decide (p.1 = k)) = true := h
    rw [h2, h]
    simpa using map_fst_map_update k v d
  · have hf : hasKey k d = false := by
      revert h; cases hasKey k d <;> simp
    have h2 : (d.any fun p => decide (p.1 = k)) = false := hf
    rw [h2, hf]
    simp

theorem splitFirstColonAux_eq_none :
    ∀ (cs : List Char) (acc : List Char),
      splitFirstColonAux acc cs = none ↔ ':' ∉ cs := by
  intro cs
  induction cs with
  | nil => intro acc; simp [splitFirstColonAux]
  | cons c cs ih =>
    intro acc
    by_cases hc : c = ':'
    · subst hc; simp [splitFirstColonAux]
    · simp [splitFirstColonAux, hc, ih, Ne.symm hc]

theorem processHeaderLoop_snd :
    ∀ (tokens : List String) (hs : Headers) (ws : List String),
      (processHeaderLoop hs ws tokens).2
        = ws ++ (tokens.filter fun t => (splitFirstColon t).isNone).map warnLine := by
  intro tokens
  induction tokens with
  | nil => intro hs ws; simp [processHeaderLoop]
  | cons t ts ih =>
    intro hs ws
    cases h : splitFirstColon t with
    | none =>
      have e0 : processHeaderLoop hs ws (t :: ts)
          = processHeaderLoop hs (ws ++ [warnLine t]) ts := by
        simp only [processHeaderLoop, h]
      rw [e0, ih]
      simp [List.filter_cons, h]
    | some kv =>
      have e0 : processHeaderLoop hs ws (t :: ts)
          = processHeaderLoop (assocInsert hs (pyStrip kv.1) (pyStrip kv.2)) ws ts := by
        simp only [processHeaderLoop, h]
      rw [e0, ih]
      simp [List.filter_cons, h]

theorem processHeaderLoop_fst :
    ∀ (tokens : List String) (hs : Headers) (ws : List String),
      (∀ q ∈ tokens.filterMap stripSplit, hasKey q.1 hs = false) →
      ((tokens.filterMap stripSplit).map Prod.fst).Nodup →
      (processHeaderLoop hs ws tokens).1 = hs ++ tokens.filterMap stripSplit := by
  intro tokens
  induction tokens with
  | nil => intro hs ws _ _; simp [processHeaderLoop]
  | cons t ts ih =>
    intro hs ws hfresh hnodup
    cases h : splitFirstColon t with
    | none =>
      have hss : stripSplit t = none := by simp [stripSplit, h]
      have e1 : (t :: ts).filterMap stripSplit = ts.filterMap stripSplit := by
        simp [List.filterMap_cons, hss]
      rw [e1] at hfresh hnodup ⊢
      have e0 : processHeaderLoop hs ws (t :: ts)
          = processHeaderLoop hs (ws ++ [warnLine t]) ts := by
        simp only [processHeaderLoop, h]
      rw [e0]
      exact ih hs _ hfresh hnodup
    | some kv =>
      have hss : stripSplit t = some (pyStrip kv.1, pyStrip kv.2) := by
        simp [stripSplit, h]
      have e1 : (t :: ts).filterMap stripSplit
          = (pyStrip kv.1, pyStrip kv.2) :: ts.filterMap stripSplit := by
        simp [List.filterMap_cons, hss]
      have hfresh0 : hasKey (pyStrip kv.1) hs = false := by
        have := hfresh (pyStrip kv.1, pyStrip kv.2)
          (by rw [e1]; exact List.mem_cons_self _ _)
        exact this
      rw [e1] at hnodup
      rw [List.map_cons, List.nodup_cons] at hnodup
      have hnotin : (pyStrip kv.1) ∉ (ts.filterMap stripSplit).map Prod.fst :=
        hnodup.1
      have hfresh2 : ∀ q ∈ ts.filterMap stripSplit,
          hasKey q.1 (hs ++ [(pyStrip kv.1, pyStrip kv.2)]) = false := by
        intro q hq
        have hqf : hasKey q.1 hs = false :=
          hfresh q (by rw [e1]; exact List.mem_cons_of_mem _ hq)
        have hqne : ¬ (pyStrip kv.1 = q.1) := by
          intro he
          exact hnotin (he ▸ List.mem_map.mpr ⟨q, hq, rfl⟩)
        have hqf2 : (hs.any fun p => decide (p.1 = q.1)) = false := hqf
        show ((hs ++ [(pyStrip kv.1, pyStrip kv.2)]).any
          fun p => decide (p.1 = q.1)) = false
        rw [List.any_append]
        simp [hqf2, hqne]
      have e0 : processHeaderLoop hs ws (t :: ts)
          = processHeaderLoop (assocInsert hs (pyStrip kv.1) (pyStrip kv.2)) ws ts := by
        simp only [processHeaderLoop, h]
      rw [e0, e1, assocInsert_not_mem _ hfresh0,
        ih (hs ++ [(pyStrip kv.1, pyStrip kv.2)]) ws hfresh2 hnodup.2]
      simp

/-- Claim C1 (code bug): on an HTTP error status the handler prints only the
error banner; the body line is guarded by `if e.response:`, which evaluates
the truthiness of the `requests` response object (`status_code < 400`), so
for the 400-599 statuses that reach this handler it is always false and the
raw response body is never printed, although the banner does carry the status
code and reason.  Evaluated here at a 404 response with a nonempty JSON
body. -/
theorem C1_http_error_body_dropped :
    httpErrorLines
      { version := 11, statusCode := 404, reason := "Not Found", headers := [],
        body := "\x7b\"error\": \"missing\"\x7d", url := "http://example.com/items" }
      = ["HTTP error: 404 Client Error: Not Found for url: http://example.com/items"] ∧
    (make_request "POST" "http://example.com/items" [] none
        (some (JVal.obj [("name", JVal.str "x")])) false
        (.ok
          { version := 11, statusCode := 404, reason := "Not Found", headers := [],
            body := "\x7b\"error\": \"missing\"\x7d",
            url := "http://example.com/items" })).outcome
      = ["HTTP error: 404 Client Error: Not Found for url: http://example.com/items"] :=
  ⟨rfl, rfl⟩

/-- Claim C2, counterexample: supplying `--json_data` with the empty string
gives invalid inline JSON (`json.loads` rejects the empty string), yet the
truthiness guard `if args.json_data:` skips the parse, the process exits with
code 0 and a network call is attempted. -/
theorem C2_counterexample :
    json_loads "" = none ∧
    mainExitCode
      { method := "GET", url := "http://example.com", header := none, data := none,
        json_data := some "", file := none, verbose := false }
      noFs (.requestError "connection refused") = 0 ∧
    (mainCalls
      { method := "GET", url := "http://example.com", header := none, data := none,
        json_data := some "", file := none, verbose := false }
      noFs (.requestError "connection refused")).length = 1 :=
  ⟨rfl, rfl, rfl⟩

/-- Claim C2 (amended): the process exits with code 1 exactly when a truthy
(non-empty) `--json_data` string fails JSON parsing, or, that option being
absent or empty, a truthy `--file` path names a missing file or a file whose
content fails JSON parsing; in those cases no network call is issued.  Every
other run completes the single request attempt and exits with code 0,
whatever the transport outcome. -/
theorem C2_exit_code_spec (args : Args) (fs : FileSystem) (t : TransportOutcome) :
    mainExitCode args fs t = (if fatalPreflight args fs then 1 else 0) ∧
    (fatalPreflight args fs = true → mainCalls args fs t = []) ∧
    (fatalPreflight args fs = false → (mainCalls args fs t).length = 1) := by
  unfold mainExitCode mainCalls main fatalPreflight resolveJsonBody
  cases hj : truthyStr args.json_data with
  | true =>
    cases hv : json_loads (args.json_data.getD "") with
    | some v => simp [hj, hv, make_request]
    | none => simp [hj, hv]
  | false =>
    cases hf : truthyStr args.file with
    | true =>
      cases hc : fs (args.file.getD "") with
      | none => simp [hj, hf, hc]
      | some content =>
        cases hv : json_loads content with
        | some v => simp [hj, hf, hc, hv, make_request]
        | none => simp [hj, hf, hc, hv]
    | false => simp [hj, hf, make_request]

/-- Witness for claim C2: a concrete invalid non-empty inline JSON string
exits with code 1 and issues no transport call. -/
theorem C2_exit_code_spec_witness :
    mainExitCode
      { method := "GET", url := "http://example.com", header := none, data := none,
        json_data := some "not json", file := none, verbose := false }
      noFs (.requestError "x") = 1 ∧
    mainCalls
      { method := "GET", url := "http://example.com", header := none, data := none,
        json_data := some "not json", file := none, verbose := false }
      noFs (.requestError "x") = [] := by
  have h := C2_exit_code_spec
    { method := "GET", url := "http://example.com", header := none, data := none,
      json_data := some "not json", file := none, verbose := false }
    noFs (.requestError "x")
  exact ⟨h.1.trans (by rfl), h.2.1 (by rfl)⟩

/-- Claim C3: a header token without a colon (and exactly such tokens) is
reported with a warning and skipped while processing continues, and when the
trimmed keys are pairwise distinct the produced header entries are exactly
the tokens split on their first colon with both sides stripped, in the order
the tokens were supplied. -/
theorem C3_header_token_rules (tokens : List String) :
    (∀ tok : String, splitFirstColon tok = none ↔ ':' ∉ tok.data) ∧
    (processHeaderTokens tokens).2
      = (tokens.filter fun t => (splitFirstColon t).isNone).map warnLine ∧
    (((tokens.filterMap stripSplit).map Prod.fst).Nodup →
      (processHeaderTokens tokens).1 = tokens.filterMap stripSplit) := by
  refine ⟨fun tok => splitFirstColonAux_eq_none tok.data [], ?_, ?_⟩
  · simpa using processHeaderLoop_snd tokens [] []
  · intro hnd
    simpa using processHeaderLoop_fst tokens [] [] (fun q hq => rfl) hnd

/-- Witness for claim C3: one colon-free token, one token with spaces and a
second colon, one plain token. -/
theorem C3_header_token_rules_witness :
    (processHeaderTokens ["nocolon", " Key : Val:ue ", "X-Token:abc"]).1
      = [("Key", "Val:ue"), ("X-Token", "abc")] ∧
    (processHeaderTokens ["nocolon", " Key : Val:ue ", "X-Token:abc"]).2
      = [warnLine "nocolon"] := by
  have h := C3_header_token_rules ["nocolon", " Key : Val:ue ", "X-Token:abc"]
  exact ⟨(h.2.2 (by decide)).trans (by rfl), h.2.1.trans (by rfl)⟩

/-- Claim C4: the body block of a successful response pretty-prints a body
that parses as JSON with 2-space indentation and non-ASCII left unescaped
(the escaper leaves every code point at 128 and above unchanged), prints a
non-JSON nonempty body verbatim, and prints the no-body placeholder for an
empty body. -/
theorem C4_success_body_rendering (body : String) :
    (∀ v, json_loads body = some v → renderBodyLines body = [json_dumps_indent2 v]) ∧
    (json_loads body = none → body ≠ "" → renderBodyLines body = [body]) ∧
    (body = "" → renderBodyLines body = ["(no body)"]) ∧
    (∀ c : Char, 128 ≤ c.toNat → escapeChar c = String.singleton c) := by
  refine ⟨?_, ?_, ?_, ?_⟩
  · intro v h
    simp [renderBodyLines, h]
  · intro h hne
    simp [renderBodyLines, h, hne]
  · intro h
    subst h
    rfl
  · intro c hc
    have h1 : ¬ c = '"' := by rintro rfl; exact absurd hc (by decide)
    have h2 : ¬ c = '\\' := by rintro rfl; exact absurd hc (by decide)
    have h3 : ¬ c = '\n' := by rintro rfl; exact absurd hc (by decide)
    have h4 : ¬ c = '\t' := by rintro rfl; exact absurd hc (by decide)
    have h5 : ¬ c = '\r' := by rintro rfl; exact absurd hc (by decide)
    have h6 : ¬ c = Char.ofNat 8 := by rintro rfl; exact absurd hc (by decide)
    have h7 : ¬ c = Char.ofNat 12 := by rintro rfl; exact absurd hc (by decide)
    have h8 : ¬ c.toNat < 32 := by omega
    simp [escapeChar, h1, h2, h3, h4, h5, h6, h7, h8]

/-- Witness for claim C4: a concrete JSON body is rendered as its 2-space
pretty-print. -/
theorem C4_success_body_rendering_witness :
    renderBodyLines "\x7b\"ok\": true\x7d"
      = [json_dumps_indent2 (JVal.obj [("ok", JVal.bool true)])] :=
  (C4_success_body_rendering "\x7b\"ok\": true\x7d").1
    (JVal.obj [("ok", JVal.bool true)]) (by rfl)

/-- Claim C5, counterexample: with a user-supplied Content-Type header, the
injected entry does override its value, but it sits at the original position
of the user entry, not logically last: the last displayed entry is the other
user header. -/
theorem C5_counterexample :
    ("Content-Type", "application/json")
        ∈ finalHeaders [("Content-Type", "text/plain"), ("X-Custom", "y")]
            (some (JVal.bool true)) ∧
    (finalHeaders [("Content-Type", "text/plain"), ("X-Custom", "y")]
        (some (JVal.bool true))).getLast?
      ≠ some ("Content-Type", "application/json") := by
  exact ⟨by decide, by decide⟩

/-- Claim C5 (amended): for a truthy JSON body the displayed EffectiveHeaders
are the user headers with `Content-Type: application/json` assigned into
them: the value of an existing `Content-Type` entry (exact key match) is
overridden in place at its original position, every other key is unchanged,
and the injected entry is appended last exactly when the user supplied no
`Content-Type` key.  This affects only the displayed preview. -/
theorem C5_preview_content_type (u : Headers) (j : JVal) (hj : j.truthy = true) :
    assocLookup "Content-Type" (finalHeaders u (some j)) = some "application/json" ∧
    (∀ k, k ≠ "Content-Type" →
      assocLookup k (finalHeaders u (some j)) = assocLookup k u) ∧
    (finalHeaders u (some j)).map Prod.fst
      = (if hasKey "Content-Type" u then u.map Prod.fst
         else u.map Prod.fst ++ ["Content-Type"]) := by
  have hfh : finalHeaders u (some j)
      = assocInsert u "Content-Type" "application/json" := by
    simp [finalHeaders, truthyJson, hj]
  rw [hfh]
  exact ⟨assocLookup_insert_self u _ _,
    fun k hk => assocLookup_insert_other u _ k _ hk,
    assocInsert_keys u _ _⟩

/-- Witness for claim C5: the override of a user-supplied Content-Type value
at a concrete input. -/
theorem C5_preview_content_type_witness :
    assocLookup "Content-Type"
      (finalHeaders [("Content-Type", "text/plain")] (some (JVal.bool true)))
      = some "application/json" :=
  (C5_preview_content_type [("Content-Type", "text/plain")] (JVal.bool true)
    (by rfl)).1

/-- Claim C6: the transport call receives exactly the original user headers
mapping together with the original data and JSON body and the fixed timeout;
the preview-only EffectiveHeaders (with the injected Content-Type) are never
the mapping handed to the transport, whatever the verbosity. -/
theorem C6_transport_gets_original_headers (m u : String) (hs : Headers)
    (d : Option String) (j : Option JVal) (vb : Bool) (t : TransportOutcome) :
    (make_request m u hs d j vb t).calls
      = [{ method := m, url := u, headers := hs, data := d, json := j,
           timeout := 10 }] :=
  rfl

/-- Claim C7: the single transport call is classified exhaustively: a
delivered response with status 400-599 takes the HTTP-error path, one with
status 100-399 is rendered as success, a request-stage failure prints the
network-error line and any other failure prints the unknown-error line; each
outcome is printed exactly once and only one transport call is ever
issued. -/
theorem C7_error_classification (m u : String) (hs : Headers) (d : Option String)
    (j : Option JVal) (vb : Bool) (t : TransportOutcome) :
    ((make_request m u hs d j vb t).calls.length = 1) ∧
    (∀ r, t = .ok r → 400 ≤ r.statusCode → r.statusCode < 600 →
      (make_request m u hs d j vb t).outcome = httpErrorLines r) ∧
    (∀ r, t = .ok r → 100 ≤ r.statusCode → r.statusCode < 400 →
      (make_request m u hs d j vb t).outcome = successLines r) ∧
    (∀ msg, t = .requestError msg →
      (make_request m u hs d j vb t).outcome = [networkErrorLine msg]) ∧
    (∀ msg, t = .otherError msg →
      (make_request m u hs d j vb t).outcome = [unknownErrorLine msg]) := by
  refine ⟨rfl, ?_, ?_, ?_, ?_⟩
  · rintro r rfl h1 h2
    have hb : raiseForStatus r = true := by
      simp only [raiseForStatus, Bool.and_eq_true, decide_eq_true_eq]
      omega
    simp [make_request, hb]
  · rintro r rfl h1 h2
    have hb : raiseForStatus r = false := by
      have hlt : ¬ (400 ≤ r.statusCode) := by omega
      simp [raiseForStatus, hlt]
    simp [make_request, hb]
  · rintro msg rfl
    rfl
  · rintro msg rfl
    rfl

/-- Witness for claim C7: a 404 response is classified to the HTTP-error
path. -/
theorem C7_error_classification_witness :
    (make_request "POST" "http://example.com/items" [] none none false
      (.ok
        { version := 11, statusCode := 404, reason := "Not Found", headers := [],
          body := "oops", url := "http://example.com/items" })).outcome
      = httpErrorLines
        { version := 11, statusCode := 404, reason := "Not Found", headers := [],
          body := "oops", url := "http://example.com/items" } :=
  (C7_error_classification "POST" "http://example.com/items" [] none none false
    (.ok
      { version := 11, statusCode := 404, reason := "Not Found", headers := [],
        body := "oops", url := "http://example.com/items" })).2.1
    { version := 11, statusCode := 404, reason := "Not Found", headers := [],
      body := "oops", url := "http://example.com/items" }
    rfl (by decide) (by decide)

/-- Claim C8: a valid JSON text supplied inline via `--json_data` and the
same text supplied as the content of a `--file` path resolve to the same
parsed JSON body, and the whole run (all printed lines and the transport
call) is identical between the two invocations. -/
theorem C8_json_body_roundtrip (t : String) (v : JVal) (path : String)
    (fs : FileSystem) (m u : String) (hdr : Option (List String))
    (d : Option String) (vb : Bool) (tr : TransportOutcome)
    (hparse : json_loads t = some v) (hfs : fs path = some t)
    (hpath : path ≠ "") :
    resolveJsonBody
      { method := m, url := u, header := hdr, data := d, json_data := some t,
        file := none, verbose := vb } fs = .ok (some v) ∧
    resolveJsonBody
      { method := m, url := u, header := hdr, data := d, json_data := none,
        file := some path, verbose := vb } fs = .ok (some v) ∧
    main
      { method := m, url := u, header := hdr, data := d, json_data := some t,
        file := none, verbose := vb } fs tr
      = main
        { method := m, url := u, header := hdr, data := d, json_data := none,
          file := some path, verbose := vb } fs tr := by
  have ht : t ≠ "" := by
    rintro rfl
    rw [json_loads_empty] at hparse
    exact Option.noConfusion hparse
  have h1 : resolveJsonBody
      { method := m, url := u, header := hdr, data := d, json_data := some t,
        file := none, verbose := vb } fs = .ok (some v) := by
    simp [resolveJsonBody, truthyStr, ht, hparse]
  have h2 : resolveJsonBody
      { method := m, url := u, header := hdr, data := d, json_data := none,
        file := some path, verbose := vb } fs = .ok (some v) := by
    simp [resolveJsonBody, truthyStr, hpath, hfs, hparse]
  refine ⟨h1, h2, ?_⟩
  unfold main
  rw [h1, h2]

/-- Witness for claim C8: the same concrete JSON object body via the inline
option and via a file produces identical runs. -/
theorem C8_json_body_roundtrip_witness :
    main
      { method := "POST", url := "http://example.com", header := none,
        data := none, json_data := some "\x7b\"a\": 1\x7d", file := none,
        verbose := false }
      oneFileFs (.requestError "x")
      = main
        { method := "POST", url := "http://example.com", header := none,
          data := none, json_data := none, file := some "body.json",
          verbose := false }
        oneFileFs (.requestError "x") :=
  (C8_json_body_roundtrip "\x7b\"a\": 1\x7d" (JVal.obj [("a", JVal.num 1)])
    "body.json" oneFileFs "POST" "http://example.com" none none false
    (.requestError "x") (by rfl) (by rfl) (by decide)).2.2

/-- Claim C9: the status line is built from the version code divided by ten,
rendered as its integral part, a dot and its remainder digit (11 renders as
1.1 and 10 as 1.0), followed by the numeric status code and the reason
phrase; it is the second line of the success rendering. -/
theorem C9_status_line_format (r : Response) :
    statusLineStr r
      = "Status: HTTP/" ++ versionStr r.version ++ " " ++ toString r.statusCode
        ++ " " ++ r.reason ∧
    versionStr r.version
      = toString (r.version / 10) ++ "." ++ toString (r.version % 10) ∧
    versionStr 11 = "1.1" ∧
    versionStr 10 = "1.0" ∧
    (successLines r)[1]? = some (statusLineStr r) :=
  ⟨rfl, rfl, rfl, rfl, rfl⟩

/-- Claim C10: the preview guards the body on Python truthiness, so for a
falsy JSON body (empty object, empty string, zero, false, null) the verbose
preview shows neither the injected Content-Type entry nor a JSON body block,
and an empty raw-body string is likewise omitted, while the transport call
still carries the falsy JSON body. -/
theorem C10_falsy_body_preview (m u : String) (hs : Headers) (j : JVal)
    (t : TransportOutcome) (hj : j.truthy = false) :
    (make_request m u hs none (some j) true t).preview
      = ["---------- Outgoing Request ----------\n",
         "> " ++ pyUpper m ++ " " ++ u ++ " HTTP/1.1",
         "> Headers:"]
        ++ hs.map (fun kv => ">   " ++ kv.1 ++ ": " ++ kv.2)
        ++ ["\n------------------------------------------------------\n"] ∧
    finalHeaders hs (some j) = hs ∧
    previewBodyLines (some "") (some j) = [] ∧
    previewBodyLines (some "") none = [] ∧
    (make_request m u hs none (some j) true t).calls
      = [{ method := m, url := u, headers := hs, data := none, json := some j,
           timeout := 10 }] := by
  refine ⟨?_, ?_, ?_, rfl, rfl⟩
  · simp [make_request, previewLines, finalHeaders, truthyJson, hj,
      previewBodyLines, truthyStr]
  · simp [finalHeaders, truthyJson, hj]
  · simp [previewBodyLines, truthyStr, hj]

/-- Witness for claim C10: an empty JSON object body leaves the verbose
preview without a Content-Type line and without a body block. -/
theorem C10_falsy_body_preview_witness :
    (make_request "GET" "http://example.com" [("X-Custom", "y")] none
        (some (JVal.obj [])) true (.requestError "boom")).preview
      = ["---------- Outgoing Request ----------\n",
         "> GET http://example.com HTTP/1.1",
         "> Headers:", ">   X-Custom: y",
         "\n------------------------------------------------------\n"] :=
  ((C10_falsy_body_preview "GET" "http://example.com" [("X-Custom", "y")]
      (JVal.obj []) (.requestError "boom") rfl).1).trans (by decide)

end ApiTester
